import Mathlib

/-!
Verification of the EMT Madrid API client (`emt_madrid/parser.py` and
`emt_madrid/emt_madrid.py`) against its natural-language specification.

The repository contains two near-duplicate implementations of the parsing
logic: free functions in `parser.py` and methods of class `APIEMT` in
`emt_madrid.py`.  Both are embedded below.  JSON dictionaries whose keys are
fixed by the API envelope are embedded as structures with `Option` fields
where the code accesses them with `.get` (absent key yields `None`) or where
a bracket access on a missing key must raise `KeyError`.  Python dictionaries
used as ordered mappings (the `lines` table) are embedded as association
lists with distinct keys in insertion order, which is exactly the observable
behaviour of a Python `dict`.  Exceptions are embedded with `Except`.
-/

namespace EMTMadrid

/-- Python exceptions that the parsing code can raise.  `valueError` carries
the message of the `ValueError` the code constructs. -/
inductive PyErr where
  | keyError
  | indexError
  | typeError
  | valueError (msg : String)
deriving DecidableEq

/-- `listStarts hay needle` is true when `needle` is an initial segment of
`hay`; auxiliary for the Python substring test `"token" in description`. -/
def listStarts : List Char → List Char → Bool
  | _, [] => true
  | [], _ :: _ => false
  | a :: as, b :: bs => b = a && listStarts as bs

/-- `listHasSub needle hay` is true when `needle` occurs contiguously in
`hay`. -/
def listHasSub (needle : List Char) : List Char → Bool
  | [] => listStarts [] needle
  | h :: t => listStarts (h :: t) needle || listHasSub needle t

/-- Embedding of the Python membership test `needle in hay` on strings. -/
def strContains (hay needle : String) : Bool :=
  listHasSub needle.toList hay.toList

/-- One entry of the `lines` mapping held in the stop snapshot.  Fields are
`Option` because `get_line_info` builds a placeholder with every field
`None`; the parsers always fill the scalar fields.  `distance` entries are
the `DistanceBus` values copied verbatim (`None` when the key is absent);
`arrivals` entries are computed minutes, padded with `None` by the
accessors. -/
structure LineInfo where
  destination : Option String
  origin : Option String
  max_freq : Option Int
  min_freq : Option Int
  start_time : Option String
  end_time : Option String
  day_type : Option String
  distance : List (Option Nat)
  arrivals : List (Option Nat)
deriving DecidableEq

/-- The `lines` mapping: a Python dict from line label to `LineInfo`,
embedded as an association list in insertion order with distinct keys. -/
abbrev Lines : Type := List (String × LineInfo)

/-- First-match lookup, the embedding of `d.get(k)` / `d[k]` succeeding. -/
def lookupLine : Lines → String → Option LineInfo
  | [], _ => none
  | p :: t, k => if p.1 = k then some p.2 else lookupLine t k

/-- Python dict assignment `d[k] = v`: overwrite in place when the key is
present, append otherwise. -/
def dictInsert (d : Lines) (k : String) (v : LineInfo) : Lines :=
  match lookupLine d k with
  | some _ => d.map (fun p => if p.1 = k then (p.1, v) else p)
  | none => d ++ [(k, v)]

/-- In-place mutation of the `LineInfo` stored under key `k` (the embedding
of looking an entry up and mutating the shared object). -/
def updateLine (d : Lines) (k : String) (f : LineInfo → LineInfo) : Lines :=
  d.map (fun p => if p.1 = k then (p.1, f p.2) else p)

/-- One record of the `dataLine` array of a stop-detail response.  All nine
keys are accessed with brackets by both implementations; the claims under
study only concern well-formed records, so the fields are total.  `maxFreq`
and `minFreq` arrive as decimal strings and are converted with `int(...)`;
they are embedded as the converted integers since no claim concerns that
conversion. -/
structure LineRecord where
  label : String
  direction : String
  headerA : String
  headerB : String
  maxFreq : Int
  minFreq : Int
  startTime : String
  stopTime : String
  dayType : String
deriving DecidableEq

/-- The dictionary value built for one line record by `parse_lines` /
`APIEMT._parse_lines` (the body of the loop at parser.py lines 62-76 and
emt_madrid.py lines 91-107, which are verbatim duplicates). -/
def lineEntry (line : LineRecord) : LineInfo :=
  { destination := some (if line.direction = "A" then line.headerA else line.headerB)
    origin := some (if line.direction = "B" then line.headerA else line.headerB)
    max_freq := some line.maxFreq
    min_freq := some line.minFreq
    start_time := some line.startTime
    end_time := some line.stopTime
    day_type := some line.dayType
    distance := []
    arrivals := [] }

/-- `parse_lines` of parser.py (and the identical `APIEMT._parse_lines`):
builds the `lines` dict keyed by `label`. -/
def parse_lines (lines : List LineRecord) : Lines :=
  lines.foldl (fun acc line => dictInsert acc line.label (lineEntry line)) []

/-- `data[0].stops[0]` of a stop-detail response; keys accessed with
brackets, embedded as total fields (the malformed-payload paths of
stop-detail parsing are not under study). -/
structure ResponseStop where
  stop : String
  name : String
  coordinates : List Int
  postalAddress : String
  dataLine : List LineRecord
deriving DecidableEq

/-- One element of the `data` array of a stop-detail response. -/
structure StopDetailData where
  stops : List ResponseStop
deriving DecidableEq

/-- Envelope of a stop-detail response: `code` and `description` read with
`.get`, `data` read with brackets (absent key raises `KeyError`). -/
structure StopDetailResponse where
  code : Option String
  description : Option String
  data : Option (List StopDetailData)
deriving DecidableEq

/-- The stop snapshot dict threaded through the parser.py functions. -/
structure StopInfo where
  stop_id : Option String
  stop_name : Option String
  stop_coordinates : Option (List Int)
  stop_address : Option String
  lines : Lines
deriving DecidableEq

/-- Return value of `parse_stop_info`: Python `None` (after catching
`BusStopDisabled`), the dict `\x7b"error": "Invalid token"\x7d` (after catching
`InvalidToken`), or the mutated snapshot. -/
inductive StopInfoResult where
  | stopDisabled
  | invalidToken
  | parsed (s : StopInfo)
deriving DecidableEq

/-- `parse_stop_info` of parser.py: code "90" raises `BusStopDisabled`
(caught, returns `None`); code "80" raises `InvalidToken` (caught, returns
the error dict); otherwise the snapshot is updated from
`data[0].stops[0]`.  `KeyError`/`IndexError` from a malformed success
payload are not caught and propagate. -/
def parse_stop_info (response : StopDetailResponse) (stop_info : StopInfo) :
    Except PyErr StopInfoResult :=
  if response.code = some "90" then .ok .stopDisabled
  else if response.code = some "80" then .ok .invalidToken
  else
    match response.data with
    | none => .error .keyError
    | some [] => .error .indexError
    | some (d :: _) =>
      match d.stops with
      | [] => .error .indexError
      | rs :: _ =>
        .ok (.parsed
          { stop_info with
            stop_id := some rs.stop
            stop_name := some rs.name
            stop_coordinates := some rs.coordinates
            stop_address := some rs.postalAddress
            lines := parse_lines rs.dataLine })

/-- One record of the `Arrive` array: `line`, `estimateArrive` and
`DistanceBus` are all read with `.get`, so each may be absent.  A missing
`estimateArrive` makes `estimateArrive / 60` raise `TypeError`. -/
structure ArriveRecord where
  line : Option String
  estimateArrive : Option Nat
  distanceBus : Option Nat
deriving DecidableEq

/-- One element of the `data` array of an arrivals response; `Arrive` is
read with `.get("Arrive", [])`. -/
structure ArrivalsData where
  arrive : Option (List ArriveRecord)
deriving DecidableEq

/-- Envelope of an arrivals response. -/
structure ArrivalsResponse where
  code : Option String
  description : Option String
  data : Option (List ArrivalsData)
deriving DecidableEq

/-- `min(math.trunc(estimateArrive / 60), 45)` for a non-negative number of
seconds: truncation of the true division is floor division, i.e. `Nat`
division. -/
def arrivalMinutes (seconds : Nat) : Nat :=
  min (seconds / 60) 45

/-- The clearing loop: `for line_info in lines.values(): arrivals = [];
distance = []`. -/
def clearLines (ls : Lines) : Lines :=
  ls.map (fun p => (p.1, { p.2 with arrivals := [], distance := [] }))

/-- Appending one arrival to the looked-up line's lists (mutation of the
shared `LineInfo`); a no-op when the label is not a key of the mapping,
which is the `if line_info:` guard. -/
def appendArrival (ls : Lines) (l : String) (t d : Option Nat) : Lines :=
  updateLine ls l (fun li =>
    { li with arrivals := li.arrivals ++ [t], distance := li.distance ++ [d] })

/-- The body of the arrivals loop: `arrival_time` is computed before the
`if line_info:` test, so a missing `estimateArrive` raises `TypeError` even
for an unknown line; a record whose `line` is absent or unknown is silently
dropped. -/
def processArrive (ls : Lines) (a : ArriveRecord) : Except PyErr Lines :=
  match a.estimateArrive with
  | none => .error .typeError
  | some s =>
    match a.line with
    | none => .ok ls
    | some l => .ok (appendArrival ls l (some (arrivalMinutes s)) a.distanceBus)

/-- The arrivals loop over the `Arrive` records, in server order. -/
def processArrivals (ls : Lines) : List ArriveRecord → Except PyErr Lines
  | [] => .ok ls
  | a :: rest =>
    match processArrive ls a with
    | .error e => .error e
    | .ok ls1 => processArrivals ls1 rest

/-- Return value of `parse_arrivals`: Python `None` (stop disabled), the
dict `\x7b"error": "Invalid token"\x7d`, or the mutated snapshot. -/
inductive ArrivalsResult where
  | stopDisabled
  | invalidToken
  | parsed (s : StopInfo)
deriving DecidableEq

/-- `parse_arrivals` of parser.py.  The guard
`code == "80" and "token" in description` short-circuits: the description is
only read when the code is "80", and `"token" in None` raises `TypeError`.
On the success path every line's `arrivals`/`distance` are cleared first,
then `data[0].get("Arrive", [])` is traversed. -/
def parse_arrivals (response : ArrivalsResponse) (stop_info : StopInfo) :
    Except PyErr ArrivalsResult :=
  if response.code = some "80" then
    match response.description with
    | none => .error .typeError
    | some d =>
      if strContains d "token" then .ok .invalidToken else .ok .stopDisabled
  else
    let ls := clearLines stop_info.lines
    match response.data with
    | none => .error .keyError
    | some [] => .error .indexError
    | some (d :: _) =>
      match processArrivals ls (d.arrive.getD []) with
      | .error e => .error e
      | .ok ls1 => .ok (.parsed { stop_info with lines := ls1 })

/-- One element of the `data` array of a login response; `accessToken` is
read with `.get` by `parse_token` and with brackets by
`APIEMT._extract_token`. -/
structure TokenDatum where
  accessToken : Option String
deriving DecidableEq

/-- Envelope of a login response. -/
structure TokenResponse where
  code : Option String
  data : Option (List TokenDatum)
deriving DecidableEq

/-- `parse_token` of parser.py: on code "01" it returns
`data[0].get("accessToken")` — a missing `data` key raises `KeyError`, an
empty array raises `IndexError`, but a missing `accessToken` key yields
`None` without any error; on any other code it returns `None`. -/
def parse_token (response : TokenResponse) : Except PyErr (Option String) :=
  if response.code = some "01" then
    match response.data with
    | none => .error .keyError
    | some [] => .error .indexError
    | some (d :: _) => .ok d.accessToken
  else .ok none

/-! ### The `APIEMT` class of `emt_madrid.py`

The class holds a token and a stop snapshot and mutates them in place.  The
HTTP transport is an external collaborator: each update method is embedded
as a function that also receives the response the request would return, and
that reports whether a request was made at all (`Bool` component), since the
invalid-token guard skips the request entirely. -/

/-- The `_stop_info` dict built by `APIEMT.__init__`. -/
structure ClientStopInfo where
  bus_stop_id : Option String
  bus_stop_name : Option String
  bus_stop_coordinates : Option (List Int)
  bus_stop_address : Option String
  lines : Lines
deriving DecidableEq

/-- The mutable state of an `APIEMT` instance: `_token` (Python `None`
before authentication, later the extracted token or the string
"Invalid token") and `_stop_info`. -/
structure APIEMT where
  token : Option String
  stop_info : ClientStopInfo
deriving DecidableEq

/-- `APIEMT.__init__`: token `None`, all snapshot fields `None`, empty
`lines` dict. -/
def APIEMT.initial : APIEMT :=
  { token := none
    stop_info :=
      { bus_stop_id := none
        bus_stop_name := none
        bus_stop_coordinates := none
        bus_stop_address := none
        lines := [] } }

/-- `APIEMT._extract_token`: any code other than "01" yields the literal
string "Invalid token"; on code "01" the `KeyError`/`IndexError` from
`response["data"][0]["accessToken"]` is re-raised as
`ValueError("Unable to get token from the API")`. -/
def APIEMT._extract_token (response : TokenResponse) : Except PyErr String :=
  if response.code = some "01" then
    match response.data with
    | none => .error (.valueError "Unable to get token from the API")
    | some [] => .error (.valueError "Unable to get token from the API")
    | some (d :: _) =>
      match d.accessToken with
      | none => .error (.valueError "Unable to get token from the API")
      | some t => .ok t
  else .ok "Invalid token"

/-- `APIEMT.authenticate`: stores and returns the extracted token (the
transport response is a parameter). -/
def APIEMT.authenticate (st : APIEMT) (response : TokenResponse) :
    Except PyErr (APIEMT × String) :=
  match APIEMT._extract_token response with
  | .error e => .error e
  | .ok t => .ok ({ st with token := some t }, t)

/-- `APIEMT._parse_lines` is a verbatim duplicate of `parse_lines`. -/
def APIEMT._parse_lines (lines : List LineRecord) : Lines :=
  parse_lines lines

/-- `APIEMT._parse_stop_info`: any code other than "00" only logs a warning
and leaves the snapshot untouched; on "00" the snapshot fields are replaced
from `data[0].stops[0]` (`bus_stop_id` is set to the requested `stop_id`
argument); `KeyError`/`IndexError` become
`ValueError("Unable to get bus stop information")`. -/
def APIEMT._parse_stop_info (st : APIEMT) (response : StopDetailResponse)
    (stop_id : String) : Except PyErr APIEMT :=
  if response.code ≠ some "00" then .ok st
  else
    match response.data with
    | none => .error (.valueError "Unable to get bus stop information")
    | some [] => .error (.valueError "Unable to get bus stop information")
    | some (d :: _) =>
      match d.stops with
      | [] => .error (.valueError "Unable to get bus stop information")
      | rs :: _ =>
        .ok
          { st with
            stop_info :=
              { st.stop_info with
                bus_stop_id := some stop_id
                bus_stop_name := some rs.name
                bus_stop_coordinates := some rs.coordinates
                bus_stop_address := some rs.postalAddress
                lines := APIEMT._parse_lines rs.dataLine } }

/-- `APIEMT.update_stop_info`: when the stored token is the string
"Invalid token" nothing happens (no request, `False` flag); otherwise the
request is made (`True` flag) with whatever token is stored — including
`None` — and the response is parsed. -/
def APIEMT.update_stop_info (st : APIEMT) (response : StopDetailResponse)
    (stop_id : String) : Bool × Except PyErr APIEMT :=
  if st.token ≠ some "Invalid token" then
    (true, APIEMT._parse_stop_info st response stop_id)
  else (false, .ok st)

/-- `APIEMT.get_stop_info`: returns the stored snapshot. -/
def APIEMT.get_stop_info (st : APIEMT) : ClientStopInfo :=
  st.stop_info

/-- `APIEMT._parse_arrivals`: unlike `parse_arrivals` of parser.py, every
code "80" response is treated alike (warning only, snapshot untouched) —
the description is never consulted.  On the success path the clearing loop
and the arrivals loop are the same as in parser.py;
`KeyError`/`IndexError` from the `data` indexing become
`ValueError("Unable to get the arrival times from the API")`, while the
`TypeError` from a missing `estimateArrive` is not caught. -/
def APIEMT._parse_arrivals (st : APIEMT) (response : ArrivalsResponse) :
    Except PyErr APIEMT :=
  if response.code = some "80" then .ok st
  else
    let ls := clearLines st.stop_info.lines
    match response.data with
    | none => .error (.valueError "Unable to get the arrival times from the API")
    | some [] => .error (.valueError "Unable to get the arrival times from the API")
    | some (d :: _) =>
      match processArrivals ls (d.arrive.getD []) with
      | .error e => .error e
      | .ok ls1 => .ok { st with stop_info := { st.stop_info with lines := ls1 } }

/-- `APIEMT.update_arrival_times`: same invalid-token guard as
`update_stop_info`. -/
def APIEMT.update_arrival_times (st : APIEMT) (response : ArrivalsResponse) :
    Bool × Except PyErr APIEMT :=
  if st.token ≠ some "Invalid token" then
    (true, APIEMT._parse_arrivals st response)
  else (false, .ok st)

/-- The `while len(arrivals) < 2: arrivals.append(None)` loop of
`APIEMT.get_arrival_time`, unrolled: the loop appends `None` once per
missing entry and runs zero, one or two times, so the result is the list
itself once its length reaches two. -/
def padArrivals : List (Option Nat) → List (Option Nat)
  | [] => [none, none]
  | [a] => [a, none]
  | l => l

/-- `APIEMT.get_arrival_time`: an unknown line raises `KeyError`, caught to
return `[None, None]`; a known line's stored `arrivals` list is padded **in
place** to at least two entries and returned (the second component is the
state after the mutation). -/
def APIEMT.get_arrival_time (st : APIEMT) (line : String) :
    List (Option Nat) × APIEMT :=
  match lookupLine st.stop_info.lines line with
  | none => ([none, none], st)
  | some li =>
    let padded := padArrivals li.arrivals
    (padded,
      { st with
        stop_info :=
          { st.stop_info with
            lines := updateLine st.stop_info.lines line
              (fun x => { x with arrivals := padArrivals x.arrivals }) } })

/-- The all-`None` placeholder `get_line_info` builds for an unknown
line. -/
def placeholderLineInfo : LineInfo :=
  { destination := none
    origin := none
    max_freq := none
    min_freq := none
    start_time := none
    end_time := none
    day_type := none
    distance := [none]
    arrivals := [none, none] }

/-- `APIEMT.get_line_info`: a known line whose `distance` list is empty gets
a single `None` appended **in place** (the `"distance" in line_info` test is
always true here since the field always exists); an unknown line yields the
placeholder, leaving the state untouched. -/
def APIEMT.get_line_info (st : APIEMT) (line : String) :
    LineInfo × APIEMT :=
  match lookupLine st.stop_info.lines line with
  | some li =>
    if li.distance.length = 0 then
      ({ li with distance := li.distance ++ [none] },
        { st with
          stop_info :=
            { st.stop_info with
              lines := updateLine st.stop_info.lines line
                (fun x => { x with distance := x.distance ++ [none] }) } })
    else (li, st)
  | none => (placeholderLineInfo, st)

/-! ### Helper lemmas -/

/-- The padding loop appends exactly the `None`s missing up to length
two. -/
lemma padArrivals_eq (l : List (Option Nat)) :
    padArrivals l = l ++ List.replicate (2 - l.length) none := by
  match l with
  | [] => rfl
  | [a] => rfl
  | a :: b :: t => simp [padArrivals]

/-- Looking a key up after mutating the entry stored under it. -/
lemma lookupLine_updateLine (d : Lines) (k : String) (f : LineInfo → LineInfo) :
    lookupLine (updateLine d k f) k = (lookupLine d k).map f := by
  induction d with
  | nil => rfl
  | cons p t ih =>
    by_cases h : p.1 = k
    · simp [updateLine, lookupLine, h]
    · simpa [updateLine, lookupLine, h] using ih

/-- The arrivals the parser stores for line `k`, computed from the response
records alone: the minute values of the records carrying label `k`, in
server order. -/
def arrivalsFor (rs : List ArriveRecord) (k : String) : List (Option Nat) :=
  rs.filterMap (fun a =>
    if a.line = some k then a.estimateArrive.map (fun s => some (arrivalMinutes s))
    else none)

/-- The distances the parser stores for line `k`, computed from the response
records alone. -/
def distancesFor (rs : List ArriveRecord) (k : String) : List (Option Nat) :=
  rs.filterMap (fun a =>
    if a.line = some k ∧ a.estimateArrive.isSome then some a.distanceBus
    else none)

/-- The two per-line sequences extracted from a response always have the
same length. -/
lemma arrivalsFor_length (rs : List ArriveRecord) (k : String) :
    (arrivalsFor rs k).length = (distancesFor rs k).length := by
  induction rs with
  | nil => rfl
  | cons a t ih =>
    by_cases hl : a.line = some k <;>
      cases he : a.estimateArrive <;>
        simp [arrivalsFor, distancesFor, List.filterMap_cons, hl, he] at * <;>
          assumption

/-- What one pass of the arrivals loop does to a single dictionary entry. -/
def rebuildEntry (rs : List ArriveRecord) (p : String × LineInfo) :
    String × LineInfo :=
  (p.1,
    { p.2 with
      arrivals := p.2.arrivals ++ arrivalsFor rs p.1
      distance := p.2.distance ++ distancesFor rs p.1 })

lemma rebuildEntry_nil (p : String × LineInfo) : rebuildEntry [] p = p := by
  simp [rebuildEntry, arrivalsFor, distancesFor]

lemma map_rebuildEntry_nil (ls : Lines) : ls.map (rebuildEntry []) = ls := by
  induction ls with
  | nil => rfl
  | cons p t ih => simp [rebuildEntry_nil, ih]

/-- A record with an absent or unknown influence: when its `line` key is
absent the record changes nothing. -/
lemma rebuildEntry_cons_none (a : ArriveRecord) (rest : List ArriveRecord)
    (hl : a.line = none) (p : String × LineInfo) :
    rebuildEntry (a :: rest) p = rebuildEntry rest p := by
  simp [rebuildEntry, arrivalsFor, distancesFor, List.filterMap_cons, hl]

/-- Absorbing one processed record into the per-entry characterisation. -/
lemma rebuildEntry_cons_some (a : ArriveRecord) (rest : List ArriveRecord)
    (s : Nat) (l : String) (he : a.estimateArrive = some s)
    (hl : a.line = some l) (p : String × LineInfo) :
    rebuildEntry rest
      (if p.1 = l then
        (p.1,
          { p.2 with
            arrivals := p.2.arrivals ++ [some (arrivalMinutes s)]
            distance := p.2.distance ++ [a.distanceBus] })
      else p) = rebuildEntry (a :: rest) p := by
  by_cases hp : p.1 = l
  · simp [rebuildEntry, arrivalsFor, distancesFor, List.filterMap_cons, hp, he, hl]
  · simp [rebuildEntry, arrivalsFor, distancesFor, List.filterMap_cons, hp, he, hl,
      Ne.symm hp]

/-- Characterisation of the arrivals loop: a successful traversal appends,
to every entry of the mapping, exactly the minute values and distances that
the response records carry for that entry's label, in server order. -/
lemma processArrivals_ok (rs : List ArriveRecord) (ls ls1 : Lines)
    (h : processArrivals ls rs = .ok ls1) :
    ls1 = ls.map (rebuildEntry rs) := by
  induction rs generalizing ls with
  | nil =>
    simp [processArrivals] at h
    rw [map_rebuildEntry_nil]
    exact h.symm
  | cons a rest ih =>
    cases he : a.estimateArrive with
    | none => simp [processArrivals, processArrive, he] at h
    | some s =>
      cases hl : a.line with
      | none =>
        simp only [processArrivals, processArrive, he, hl] at h
        rw [ih _ h]
        exact List.map_congr_left (fun p _ => (rebuildEntry_cons_none a rest hl p).symm)
      | some l =>
        simp only [processArrivals, processArrive, he, hl] at h
        rw [ih _ h]
        rw [appendArrival, updateLine, List.map_map]
        exact List.map_congr_left
          (fun p _ => rebuildEntry_cons_some a rest s l he hl p)

/-- An empty stop snapshot, used to instantiate witnesses. -/
def emptyStop : StopInfo :=
  { stop_id := none
    stop_name := none
    stop_coordinates := none
    stop_address := none
    lines := [] }

/-! ### Claims -/

/-- Claim C1, counterexample.  The claim states that for every direction
value other than "A" the parsed line has destination = headerB **and**
origin = headerA.  The code computes origin as headerA only when the
direction is exactly "B": a record with direction "C", headerA "X",
headerB "Y" is parsed with origin = headerB = "Y", not headerA = "X". -/
theorem claim1_counterexample :
    parse_lines [⟨"27", "C", "X", "Y", 10, 2, "06:00", "23:30", "LA"⟩] =
      [("27", lineEntry ⟨"27", "C", "X", "Y", 10, 2, "06:00", "23:30", "LA"⟩)] ∧
    (lineEntry ⟨"27", "C", "X", "Y", 10, 2, "06:00", "23:30", "LA"⟩).origin =
      some "Y" ∧
    ("Y" : String) ≠ "X" :=
  ⟨rfl, rfl, by decide⟩

/-- Claim C1, amended: the stop-info line parser maps a record with
direction "A" to destination = headerA, origin = headerB; a record with
direction "B" to destination = headerB, origin = headerA; and a record with
any other direction value to destination = headerB **and** origin = headerB
(the swap is only reversed for direction "B"; origin falls back to headerB
otherwise). -/
theorem claim1_direction_swap (r : LineRecord) :
    parse_lines [r] = [(r.label, lineEntry r)] ∧
    (r.direction = "A" →
      (lineEntry r).destination = some r.headerA ∧
      (lineEntry r).origin = some r.headerB) ∧
    (r.direction = "B" →
      (lineEntry r).destination = some r.headerB ∧
      (lineEntry r).origin = some r.headerA) ∧
    (r.direction ≠ "A" → r.direction ≠ "B" →
      (lineEntry r).destination = some r.headerB ∧
      (lineEntry r).origin = some r.headerB) := by
  refine ⟨rfl, fun h => ?_, fun h => ?_, fun hA hB => ?_⟩
  · constructor <;> simp [lineEntry, h]
  · constructor <;> simp [lineEntry, h]
  · constructor <;> simp [lineEntry, hA, hB]

/-- Claim C1, witness: a concrete record with direction "A". -/
theorem claim1_witness :
    (lineEntry ⟨"1", "A", "HA", "HB", 9, 4, "s", "e", "d"⟩).destination =
      some "HA" ∧
    (lineEntry ⟨"1", "A", "HA", "HB", 9, 4, "s", "e", "d"⟩).origin = some "HB" :=
  (claim1_direction_swap ⟨"1", "A", "HA", "HB", 9, 4, "s", "e", "d"⟩).2.1 rfl

/-- Claim C3: in `parse_arrivals`, a response with code "80" whose
description contains the substring "token" yields the invalid-token marker
(Python: the dict `\x7b"error": "Invalid token"\x7d`), while a code-"80" response
without that substring yields the stop-disabled signal (Python: `None`, the
snapshot argument never touched — on this branch the function returns before
any mutation); the two outcomes are distinct values. -/
theorem claim3_code80_branching (r : ArrivalsResponse) (si : StopInfo)
    (d : String) (hc : r.code = some "80") (hd : r.description = some d) :
    (strContains d "token" = true → parse_arrivals r si = .ok .invalidToken) ∧
    (strContains d "token" = false → parse_arrivals r si = .ok .stopDisabled) ∧
    ArrivalsResult.invalidToken ≠ ArrivalsResult.stopDisabled := by
  refine ⟨fun h => ?_, fun h => ?_, by simp⟩ <;>
    simp [parse_arrivals, hc, hd, h]

/-- Claim C3, witness: concrete code-"80" responses with and without the
substring "token" in the description. -/
theorem claim3_witness :
    parse_arrivals ⟨some "80", some "Error: invalid token", none⟩ emptyStop =
      .ok .invalidToken ∧
    parse_arrivals ⟨some "80", some "Stop disabled", none⟩ emptyStop =
      .ok .stopDisabled :=
  ⟨(claim3_code80_branching _ emptyStop _ rfl rfl).1 (by decide),
   (claim3_code80_branching _ emptyStop _ rfl rfl).2.1 (by decide)⟩

/-- Claim C4: a stop-info response with code "80" makes `parse_stop_info`
return the invalid-token marker (an ordinary return value, `.ok`, not a
propagated exception), and that marker is distinct from the stop-disabled
outcome, so the caller can trigger re-authentication. -/
theorem claim4_stop_info_invalid_token (r : StopDetailResponse)
    (si : StopInfo) (hc : r.code = some "80") :
    parse_stop_info r si = .ok .invalidToken ∧
    StopInfoResult.invalidToken ≠ StopInfoResult.stopDisabled := by
  refine ⟨?_, by simp⟩
  simp [parse_stop_info, hc]

/-- Claim C4, witness. -/
theorem claim4_witness :
    parse_stop_info ⟨some "80", none, none⟩ emptyStop = .ok .invalidToken ∧
    StopInfoResult.invalidToken ≠ StopInfoResult.stopDisabled :=
  claim4_stop_info_invalid_token ⟨some "80", none, none⟩ emptyStop rfl

/-- Claim C6: when the stored token is the invalid-token marker string, both
update methods skip the request (`false` flag: `_make_request` is never
reached) and return the state completely unchanged. -/
theorem claim6_invalid_token_noop (st : APIEMT) (r1 : StopDetailResponse)
    (r2 : ArrivalsResponse) (stop_id : String)
    (h : st.token = some "Invalid token") :
    st.update_stop_info r1 stop_id = (false, .ok st) ∧
    st.update_arrival_times r2 = (false, .ok st) := by
  constructor <;>
    simp [APIEMT.update_stop_info, APIEMT.update_arrival_times, h]

/-- Claim C6, witness: a freshly initialised client whose authentication
failed (token set to the marker). -/
theorem claim6_witness :
    ({ APIEMT.initial with token := some "Invalid token" } : APIEMT).update_stop_info
        ⟨some "00", none, none⟩ "1234" =
      (false, .ok { APIEMT.initial with token := some "Invalid token" }) ∧
    ({ APIEMT.initial with token := some "Invalid token" } : APIEMT).update_arrival_times
        ⟨some "00", none, none⟩ =
      (false, .ok { APIEMT.initial with token := some "Invalid token" }) :=
  claim6_invalid_token_noop _ _ _ _ rfl

/-- Claim C8, counterexample.  The claim states that token extraction on a
code-"01" response with a missing `accessToken` field fails with a
malformed-response error; but `parse_token` reads the field with `.get`, so
it silently returns `None` — the same default it returns for rejected
credentials — with no error at all. -/
theorem claim8_counterexample :
    parse_token ⟨some "01", some [⟨none⟩]⟩ = .ok none :=
  rfl

/-- Claim C8, amended: on a code-"01" response with a malformed payload,
`APIEMT._extract_token` always fails with the distinct
`ValueError("Unable to get token from the API")`; `parse_token` fails (with
an uncaught `KeyError`/`IndexError`) when the `data` entry is missing or
empty, but silently returns `None` when only the `accessToken` field is
absent. -/
theorem claim8_malformed_token (r : TokenResponse) (hc : r.code = some "01") :
    (r.data = none →
      APIEMT._extract_token r =
        .error (.valueError "Unable to get token from the API") ∧
      parse_token r = .error .keyError) ∧
    (r.data = some [] →
      APIEMT._extract_token r =
        .error (.valueError "Unable to get token from the API") ∧
      parse_token r = .error .indexError) ∧
    (∀ rest, r.data = some (⟨none⟩ :: rest) →
      APIEMT._extract_token r =
        .error (.valueError "Unable to get token from the API") ∧
      parse_token r = .ok none) := by
  refine ⟨fun h => ?_, fun h => ?_, fun rest h => ?_⟩ <;>
    constructor <;> simp [APIEMT._extract_token, parse_token, hc, h]

/-- Claim C8, witness: a "success" login response with no `data` entry. -/
theorem claim8_witness :
    APIEMT._extract_token ⟨some "01", none⟩ =
      .error (.valueError "Unable to get token from the API") ∧
    parse_token ⟨some "01", none⟩ = .error .keyError :=
  (claim8_malformed_token ⟨some "01", none⟩ rfl).1 rfl

/-- Claim C10: the update guard compares the token against the exact marker
string only; a client that never authenticated (token `None`, its initial
value) passes the guard, so a request is made (`true` flag, headers carrying
the `None` token) and the response is handed to the parsing method. -/
theorem claim10_none_token_requests (st : APIEMT) (r1 : StopDetailResponse)
    (r2 : ArrivalsResponse) (stop_id : String) (h : st.token = none) :
    st.update_stop_info r1 stop_id =
      (true, st._parse_stop_info r1 stop_id) ∧
    st.update_arrival_times r2 = (true, st._parse_arrivals r2) := by
  constructor <;>
    simp [APIEMT.update_stop_info, APIEMT.update_arrival_times, h]

/-- Claim C10, witness: the freshly constructed client has token `None` and
still sends both requests and parses the responses. -/
theorem claim10_witness :
    APIEMT.initial.update_stop_info ⟨some "90", none, none⟩ "1234" =
      (true, APIEMT.initial._parse_stop_info ⟨some "90", none, none⟩ "1234") ∧
    APIEMT.initial.update_arrival_times ⟨some "90", none, none⟩ =
      (true, APIEMT.initial._parse_arrivals ⟨some "90", none, none⟩) :=
  claim10_none_token_requests APIEMT.initial _ _ _ rfl

/-- A line entry with one stored arrival, for the C2 witness. -/
def sampleLine2 : LineInfo :=
  { destination := some "D"
    origin := some "O"
    max_freq := some 10
    min_freq := some 2
    start_time := some "06:00"
    end_time := some "23:30"
    day_type := some "LA"
    distance := [some 100]
    arrivals := [some 5] }

/-- A client state holding `sampleLine2` under label "27". -/
def sampleState2 : APIEMT :=
  { token := some "tok"
    stop_info := { APIEMT.initial.stop_info with lines := [("27", sampleLine2)] } }

/-- Claim C2, counterexample.  The claim states that `get_arrival_time`
always returns exactly two elements, truncating when more than two arrivals
are stored; but the method only pads (`while len < 2`) and never truncates:
with three stored arrivals it returns all three. -/
theorem claim2_counterexample :
    (APIEMT.get_arrival_time
      { token := some "tok"
        stop_info :=
          { APIEMT.initial.stop_info with
            lines := [("27", { sampleLine2 with
              arrivals := [some 1, some 2, some 3] })] } } "27").1 =
      [some 1, some 2, some 3] ∧
    ([some 1, some 2, some 3] : List (Option Nat)).length ≠ 2 :=
  ⟨rfl, by decide⟩

/-- Claim C2, amended: `get_arrival_time` returns the line's stored
arrivals padded with nulls to **at least** two elements — exactly two nulls
for an unknown line, `null`-padding when fewer than two values are stored,
and all stored values (no truncation) when more than two are present; the
result length is `max 2 (stored length)`. -/
theorem claim2_get_arrival_time (st : APIEMT) (line : String) :
    (lookupLine st.stop_info.lines line = none →
      (st.get_arrival_time line).1 = [none, none]) ∧
    (∀ li, lookupLine st.stop_info.lines line = some li →
      (st.get_arrival_time line).1 =
        li.arrivals ++ List.replicate (2 - li.arrivals.length) none ∧
      (st.get_arrival_time line).1.length = max 2 li.arrivals.length) := by
  constructor
  · intro h
    simp [APIEMT.get_arrival_time, h]
  · intro li h
    have h1 : (st.get_arrival_time line).1 =
        li.arrivals ++ List.replicate (2 - li.arrivals.length) none := by
      simp [APIEMT.get_arrival_time, h, padArrivals_eq]
    refine ⟨h1, ?_⟩
    rw [h1]
    simp [List.length_append]
    omega

/-- Claim C2, witness: a line with a single stored arrival is padded to
`[some 5, none]` of length two. -/
theorem claim2_witness :
    (sampleState2.get_arrival_time "27").1 =
      sampleLine2.arrivals ++
        List.replicate (2 - sampleLine2.arrivals.length) none ∧
    (sampleState2.get_arrival_time "27").1.length =
      max 2 sampleLine2.arrivals.length :=
  (claim2_get_arrival_time sampleState2 "27").2 sampleLine2 rfl

/-- A line entry with one arrival and empty distance, for the C9 witness. -/
def sampleLine9 : LineInfo :=
  { destination := some "D"
    origin := some "O"
    max_freq := some 10
    min_freq := some 2
    start_time := some "06:00"
    end_time := some "23:30"
    day_type := some "LA"
    distance := []
    arrivals := [some 7] }

/-- A client state holding `sampleLine9` under label "L". -/
def sampleState9 : APIEMT :=
  { token := some "tok"
    stop_info := { APIEMT.initial.stop_info with lines := [("L", sampleLine9)] } }

/-- Claim C9: the read accessors mutate the snapshot they report from.  For
a known line with fewer than two stored arrivals, `get_arrival_time`
appends the padding nulls to the stored list itself, and for a known line
with an empty stored distance list, `get_line_info` appends a null to the
stored list itself; a subsequent `get_stop_info` on the resulting state
observes the padded sequences. -/
theorem claim9_accessors_mutate (st : APIEMT) (line : String) (li : LineInfo)
    (h : lookupLine st.stop_info.lines line = some li) :
    (li.arrivals.length < 2 →
      lookupLine (APIEMT.get_stop_info (st.get_arrival_time line).2).lines line =
        some { li with
          arrivals := li.arrivals ++ List.replicate (2 - li.arrivals.length) none }) ∧
    (li.distance = [] →
      lookupLine (APIEMT.get_stop_info (st.get_line_info line).2).lines line =
        some { li with distance := [none] }) := by
  constructor
  · intro _
    simp [APIEMT.get_arrival_time, APIEMT.get_stop_info, h,
      lookupLine_updateLine, padArrivals_eq]
  · intro hd
    simp [APIEMT.get_line_info, APIEMT.get_stop_info, h, hd,
      lookupLine_updateLine]

/-- Claim C9, witness: after reading line "L" through each accessor, the
snapshot itself holds the padded lists. -/
theorem claim9_witness :
    lookupLine
        (APIEMT.get_stop_info (sampleState9.get_arrival_time "L").2).lines "L" =
      some { sampleLine9 with
        arrivals := sampleLine9.arrivals ++
          List.replicate (2 - sampleLine9.arrivals.length) none } ∧
    lookupLine
        (APIEMT.get_stop_info (sampleState9.get_line_info "L").2).lines "L" =
      some { sampleLine9 with distance := [none] } :=
  ⟨(claim9_accessors_mutate sampleState9 "L" sampleLine9 rfl).1 (by decide),
   (claim9_accessors_mutate sampleState9 "L" sampleLine9 rfl).2 rfl⟩

/-- The `Arrive` records of an arrivals response, as the success path reads
them (`response["data"][0].get("Arrive", [])`). -/
def responseRecords (r : ArrivalsResponse) : List ArriveRecord :=
  match r.data with
  | some (d :: _) => d.arrive.getD []
  | _ => []

/-- Claim C5: after every successful arrivals parse, every line present in
the snapshot has `arrivals` and `distance` of equal length, and both lists
are exactly the values extracted from the latest response's records for
that label, in server order (`arrivalsFor` / `distancesFor` depend on the
response only, so nothing is accumulated from the previous snapshot: the
lists are cleared and rebuilt). -/
theorem claim5_arrivals_rebuilt (r : ArrivalsResponse) (si s1 : StopInfo)
    (h : parse_arrivals r si = .ok (.parsed s1)) :
    ∀ p ∈ s1.lines,
      p.2.arrivals.length = p.2.distance.length ∧
      p.2.arrivals = arrivalsFor (responseRecords r) p.1 ∧
      p.2.distance = distancesFor (responseRecords r) p.1 := by
  intro p hp
  simp only [parse_arrivals] at h
  by_cases hc : r.code = some "80"
  · rw [if_pos hc] at h
    cases hd : r.description with
    | none => rw [hd] at h; exact absurd h (by simp)
    | some d =>
      rw [hd] at h
      by_cases ht : strContains d "token" <;> simp [ht] at h
  · rw [if_neg hc] at h
    split at h
    · exact absurd h (by simp)
    · exact absurd h (by simp)
    · rename_i ds d rest hdata
      split at h
      · exact absurd h (by simp)
      · rename_i ls1 hpr
        simp only [Except.ok.injEq, ArrivalsResult.parsed.injEq] at h
        have hrec : responseRecords r = d.arrive.getD [] := by
          simp [responseRecords, hdata]
        have hls : ls1 = (clearLines si.lines).map
            (rebuildEntry (d.arrive.getD [])) :=
          processArrivals_ok _ _ _ hpr
        rw [← h] at hp
        simp only [hls, clearLines, List.map_map, List.mem_map] at hp
        obtain ⟨q, _, hq⟩ := hp
        subst hq
        refine ⟨?_, ?_, ?_⟩ <;>
          simp [rebuildEntry, hrec, arrivalsFor_length]

/-- A line with stale arrivals/distance data, for the C5 witness. -/
def sampleLine5 : LineInfo :=
  { destination := some "D"
    origin := some "O"
    max_freq := some 10
    min_freq := some 2
    start_time := some "06:00"
    end_time := some "23:30"
    day_type := some "LA"
    distance := [some 1, some 2]
    arrivals := [some 9] }

/-- A second line the fresh response does not mention, for the C5
witness. -/
def otherLine5 : LineInfo :=
  { sampleLine5 with distance := [some 3], arrivals := [some 44] }

/-- A snapshot with two lines holding stale data. -/
def sampleStop5 : StopInfo :=
  { stop_id := some "1234"
    stop_name := none
    stop_coordinates := none
    stop_address := none
    lines := [("27", sampleLine5), ("N2", otherLine5)] }

/-- An arrivals response reporting line "27" twice (30 s and 150 s). -/
def resp5 : ArrivalsResponse :=
  ⟨some "00", none,
    some [⟨some [⟨some "27", some 30, some 100⟩,
                 ⟨some "27", some 150, some 200⟩]⟩]⟩

/-- The snapshot after parsing `resp5`: line "27" rebuilt from the two
records, line "N2" cleared. -/
def result5 : StopInfo :=
  { sampleStop5 with
    lines := [("27", { sampleLine5 with
                arrivals := [some 0, some 2]
                distance := [some 100, some 200] }),
              ("N2", { otherLine5 with arrivals := [], distance := [] })] }

/-- Claim C5, witness: parsing `resp5` over the stale snapshot yields, for
line "27", equal-length arrivals/distances equal to the response-derived
sequences. -/
theorem claim5_witness :
    ([some 0, some 2] : List (Option Nat)).length =
      ([some 100, some 200] : List (Option Nat)).length ∧
    ([some 0, some 2] : List (Option Nat)) =
      arrivalsFor (responseRecords resp5) "27" ∧
    ([some 100, some 200] : List (Option Nat)) =
      distancesFor (responseRecords resp5) "27" :=
  claim5_arrivals_rebuilt resp5 sampleStop5 result5 rfl
    ("27", { sampleLine5 with
      arrivals := [some 0, some 2]
      distance := [some 100, some 200] })
    (by decide)

/-- Claim C7: the stored arrival time in minutes is
`min(floor(estimateArrive / 60), 45)`.  For any non-"80" response carrying a
single record for the snapshot's only line, the parse stores exactly that
value (`Nat` division is the floor of the true division that `math.trunc`
truncates). -/
theorem claim7_arrival_minutes (code desc : Option String) (l : String)
    (li : LineInfo) (si : StopInfo) (s : Nat) (dB : Option Nat)
    (hc : code ≠ some "80") (hl : si.lines = [(l, li)]) :
    parse_arrivals ⟨code, desc, some [⟨some [⟨some l, some s, dB⟩]⟩]⟩ si =
      .ok (.parsed
        { si with
          lines := [(l, { li with
            arrivals := [some (min (s / 60) 45)]
            distance := [dB] })] }) := by
  simp [parse_arrivals, hc, hl, clearLines, processArrivals, processArrive,
    appendArrival, updateLine, arrivalMinutes]

/-- A line entry for the C7 witness. -/
def line7 : LineInfo :=
  { destination := some "D"
    origin := some "O"
    max_freq := some 10
    min_freq := some 2
    start_time := some "06:00"
    end_time := some "23:30"
    day_type := some "LA"
    distance := []
    arrivals := [] }

/-- A snapshot with only line "27", for the C7 witness. -/
def stop7 : StopInfo :=
  { stop_id := some "1234"
    stop_name := none
    stop_coordinates := none
    stop_address := none
    lines := [("27", line7)] }

/-- Claim C7, witness: `estimateArrive = 59` s stores 0 min, 125 s stores
2 min, and 3600 s is capped at 45 rather than 60. -/
theorem claim7_witness :
    parse_arrivals ⟨some "00", none, some [⟨some [⟨some "27", some 59, some 100⟩]⟩]⟩
        stop7 =
      .ok (.parsed
        { stop7 with
          lines := [("27", { line7 with
            arrivals := [some (min (59 / 60) 45)]
            distance := [some 100] })] }) ∧
    min (59 / 60) 45 = 0 ∧ min (125 / 60) 45 = 2 ∧
    min (3600 / 60) 45 = 45 ∧ (3600 : Nat) / 60 = 60 :=
  ⟨claim7_arrival_minutes (some "00") none "27" line7 stop7 59 (some 100)
      (by decide) rfl,
   by decide, by decide, by decide, by decide⟩

end EMTMadrid
